import Mathlib

/-!
# lithdew/recaptcha: request validation, marshaling, response parsing and the call

A shallow embedding of `http.go` and `client.go`.

* Go strings are Lean `String`s, `[]byte` bodies are `List UInt8`, `[]string` is `List String`
  (a nil slice and an empty slice are both `[]`).
* A Go `(value, error)` result is a pair whose second component is `Option Error`
  (`none` is the nil error), so the value returned next to an error stays visible.
* The third-party collaborators are not part of the repository. The tokenizer
  `fastjson.ParseBytes`, the number conversion behind `(*fastjson.Value).Float64` and
  `time.Parse(time.RFC3339, _)` are parameters (`Lib`); the HTTP client is a parameter
  (`Transport`). The accessors of a decoded `fastjson.Value` that `Parse` branches on are
  written out over the JSON tree.
-/

namespace Recaptcha

/-! ## Errors -/

/-- Go `error` values: `errors.New msg` (and errors made by the libraries), and
`fmt.Errorf (msg ++ ": %w") inner`, which wraps `inner`. -/
inductive Error where
  | new (msg : String)
  | wrap (msg : String) (inner : Error)
  deriving DecidableEq, Repr

/-- The error wrapped by an error (`errors.Unwrap`). -/
def Error.Unwrap : Error → Option Error
  | .new _ => none
  | .wrap _ inner => some inner

/-! ## Request: `Validate` and `MarshalTo` -/

/-- Request holds the payload to be sent to the reCAPTCHA API. -/
structure Request where
  Secret : String
  Response : String
  RemoteIP : String
  deriving DecidableEq, Repr

/-- Validate: the required parameters must be filled. -/
def Request.Validate (r : Request) : Option Error :=
  if r.Secret = "" then
    some (Error.new "secret must not be empty")
  else if r.Response = "" then
    some (Error.new "response must not be empty")
  else
    none

/-- The key/value pairs of `fasthttp.Args`, in insertion order. -/
abbrev Args := List (String × String)

/-- The method `(*fasthttp.Args).Set key value`: overwrite the value of the first pair
with that key, or append a new pair when the key is not there. -/
def Args.Set : Args → String → String → Args
  | [], key, value => [(key, value)]
  | (k, v) :: rest, key, value =>
    if key = k then (k, value) :: rest else (k, v) :: Args.Set rest key value

/-- The method `(*fasthttp.Args).Peek key`: the value of the first pair with that key. -/
def Args.Peek : Args → String → Option String
  | [], _ => none
  | (k, v) :: rest, key => if key = k then some v else Args.Peek rest key

/-- The keys held by the arguments, in order. -/
def Args.keys (a : Args) : List String := a.map Prod.fst

/-- The parts of a `fasthttp.Request` that the package sets. -/
structure HTTPRequest where
  Method : String
  ContentType : String
  RequestURI : String
  PostArgs : Args
  deriving DecidableEq, Repr

/-- The result of `fasthttp.AcquireRequest ()`: a reset request. -/
def AcquireRequest : HTTPRequest :=
  { Method := "", ContentType := "", RequestURI := "", PostArgs := [] }

/-- Endpoint to the reCAPTCHA API. -/
def Endpoint : String := "https://google.com/recaptcha/api/siteverify"

/-- MarshalTo fills a `fasthttp.Request` with the parameters of the request. -/
def Request.MarshalTo (r : Request) (req : HTTPRequest) : HTTPRequest :=
  let args := req.PostArgs
  let args := Args.Set args "secret" r.Secret
  let args := Args.Set args "response" r.Response
  let args := if r.RemoteIP ≠ "" then Args.Set args "remoteip" r.RemoteIP else args
  { req with PostArgs := args }

/-! ## The decoded JSON document (`fastjson.Value`) -/

/-- A decoded JSON value as `fastjson` holds it: `vtrue` and `vfalse` are the types
`TypeTrue` and `TypeFalse`; a number keeps its token text, a string its unescaped
content, an object its members in document order with unescaped keys. -/
inductive Value where
  | null
  | vtrue
  | vfalse
  | number (raw : String)
  | string (s : String)
  | array (a : List Value)
  | object (kvs : List (String × Value))

/-- The name `fastjson` prints for the type of a value. -/
def Value.typeName : Value → String
  | .null => "null"
  | .vtrue => "true"
  | .vfalse => "false"
  | .number _ => "number"
  | .string _ => "string"
  | .array _ => "array"
  | .object _ => "object"

/-- The method `(*fastjson.Object).Get key`: the value of the first member with that key. -/
def objectGet : List (String × Value) → String → Option Value
  | [], _ => none
  | (k, v) :: rest, key => if k = key then some v else objectGet rest key

/-- The function `strconv.Atoi`: an optional sign followed by one or more decimal digits. -/
def atoi (s : String) : Option Int :=
  let digits (ds : List Char) : Option Nat :=
    if ds ≠ [] ∧ ds.all Char.isDigit then
      some (ds.foldl (fun n c => 10 * n + (c.toNat - 48)) 0)
    else none
  match s.toList with
  | '+' :: ds => (digits ds).map Int.ofNat
  | '-' :: ds => (digits ds).map (fun n => - Int.ofNat n)
  | ds => (digits ds).map Int.ofNat

/-- The method `(*fastjson.Value).Get key` with one key: a member of an object, an element of an
array when the key is a decimal index in range, and nil (here `none`) otherwise. -/
def Value.Get (v : Value) (key : String) : Option Value :=
  match v with
  | .object kvs => objectGet kvs key
  | .array a =>
    match atoi key with
    | some n => if n < 0 ∨ n ≥ a.length then none else a.get? n.toNat
    | none => none
  | _ => none

/-- The method `(*fastjson.Value).Bool`: the boolean of a `true` or `false` value, an error for
every other type. -/
def Value.Bool (v : Value) : Bool × Option Error :=
  match v with
  | .vtrue => (true, none)
  | .vfalse => (false, none)
  | _ => (false, some (Error.new ("value doesn't contain bool; it contains " ++ v.typeName)))

/-- The method `(*fastjson.Value).Array`: the elements of an array, an error for every
other type. -/
def Value.Array (v : Value) : List Value × Option Error :=
  match v with
  | .array a => (a, none)
  | _ => ([], some (Error.new ("value doesn't contain array; it contains " ++ v.typeName)))

/-- The conversion `string (v.GetStringBytes ())`: the content of a string value, and the
empty string (from the nil byte slice) for every other type. -/
def Value.GetStringBytes (v : Value) : String :=
  match v with
  | .string s => s
  | _ => ""

/-- The collaborators outside the repository, for a type `F` of `float64` values and a
type `T` of `time.Time` values: `fastjson.ParseBytes`; the conversion of a number token
that `(*fastjson.Value).Float64` runs on a number value; `time.Parse (time.RFC3339, _)`. -/
structure Lib (F T : Type) where
  ParseBytes : List UInt8 → Except Error Value
  ParseFloat : String → F × Option Error
  ParseTime : String → T × Option Error

/-- The method `(*fastjson.Value).Float64`: the conversion of the token of a number value, an error
for every other type. -/
def Value.Float64 {F T : Type} [Zero F] (lib : Lib F T) (v : Value) : F × Option Error :=
  match v with
  | .number raw => lib.ParseFloat raw
  | _ => (0, some (Error.new ("value doesn't contain number; it contains " ++ v.typeName)))

/-- Whether a value is a string that `time.Parse (time.RFC3339, _)` accepts: the reading
of a valid RFC 3339 timestamp that the time library gives. -/
def isRFC3339 {F T : Type} (lib : Lib F T) (v : Value) : Bool :=
  match v with
  | .string s => (lib.ParseTime s).2.isNone
  | _ => false

/-! ## Response and `Parse` -/

/-- Response represents a response from the reCAPTCHA API. -/
structure Response (F T : Type) where
  Success : Bool
  Score : F
  Action : String
  ChallengeTS : T
  Hostname : String
  ErrorCodes : List String

/-- The zero value `Response{}`, which is also `var r Response`. -/
def Response.zero {F T : Type} [Zero F] [Inhabited T] : Response F T :=
  { Success := false, Score := 0, Action := "", ChallengeTS := default, Hostname := "",
    ErrorCodes := [] }

/-- Parse parses either a reCAPTCHA v2 or v3 response. -/
def Parse {F T : Type} [Zero F] [Inhabited T] (lib : Lib F T) (body : List UInt8) :
    Response F T × Option Error :=
  let r : Response F T := Response.zero
  match lib.ParseBytes body with
  | .error err => (r, some (Error.wrap "failed to parse api json response" err))
  | .ok val =>
    match val.Get "success" with
    | none => (r, some (Error.new "json field 'success' not found"))
    | some v =>
      let r := { r with Success := v.Bool.1 }
      match v.Bool.2 with
      | some err => (r, some (Error.wrap "failed to parse json field 'success'" err))
      | none =>
        if !r.Success then
          match val.Get "error-codes" with
          | none => (r, some (Error.new "json field 'error-codes' not found"))
          | some v =>
            match v.Array.2 with
            | some err => (r, some (Error.wrap "failed to parse json field 'error-codes'" err))
            | none =>
              let r := { r with ErrorCodes := v.Array.1.map Value.GetStringBytes }
              (r, none)
        else
          -- START v3 FIELDS
          let scored : Response F T × Option Error :=
            match val.Get "score" with
            | some v => ({ r with Score := (v.Float64 lib).1 }, (v.Float64 lib).2)
            | none => (r, none)
          let r := scored.1
          match scored.2 with
          | some err => (r, some (Error.wrap "failed to parse json field 'score'" err))
          | none =>
            let r :=
              match val.Get "action" with
              | some v => { r with Action := v.GetStringBytes }
              | none => r
            -- END v3 FIELDS
            match val.Get "challenge_ts" with
            | none => (r, some (Error.new "json field 'challenge_ts' not found"))
            | some v =>
              let r := { r with ChallengeTS := (lib.ParseTime v.GetStringBytes).1 }
              match (lib.ParseTime v.GetStringBytes).2 with
              | some err => (r, some (Error.wrap "failed to parse json field 'challenge_ts'" err))
              | none =>
                match val.Get "hostname" with
                | some v => ({ r with Hostname := v.GetStringBytes }, none)
                | none =>
                  match val.Get "apk_package_name" with
                  | some v => ({ r with Hostname := v.GetStringBytes }, none)
                  | none =>
                    (r, some (Error.new
                      "both json fields 'hostname' and 'apk_package_name' not found"))

/-! ## The call: `Do`, `DoTimeout`, `Client.Do`, `Client.DoTimeout` -/

/-- The type `time.Duration`, a count of nanoseconds. -/
abbrev Duration := Int

/-- An HTTP client (`fasthttp.Client`, or the default client behind the package-level
`fasthttp.Do` and `fasthttp.DoTimeout`) over network states `σ`: each call takes the
request and the state, and gives the error or the body of the filled response, and the
next state. -/
structure Transport (σ : Type) where
  Do : HTTPRequest → σ → Except Error (List UInt8) × σ
  DoTimeout : HTTPRequest → Duration → σ → Except Error (List UInt8) × σ

/-- The world a call runs in: the network state, and the requests handed to a transport
so far, oldest first. -/
structure World (σ : Type) where
  net : σ
  sent : List HTTPRequest

/-- Do verifies a reCAPTCHA attempt through the default client `fasthttp`. -/
def Do {σ F T : Type} [Zero F] [Inhabited T] (fasthttp : Transport σ) (lib : Lib F T)
    (params : Request) (w : World σ) : (Response F T × Option Error) × World σ :=
  match params.Validate with
  | some err =>
    ((Response.zero, some (Error.wrap "failed to validate recaptcha request" err)), w)
  | none =>
    let req := AcquireRequest
    let req := { req with Method := "POST" }
    let req := { req with ContentType := "application/x-www-form-urlencoded" }
    let req := { req with RequestURI := Endpoint }
    let req := params.MarshalTo req
    let res := fasthttp.Do req w.net
    let w : World σ := { net := res.2, sent := w.sent ++ [req] }
    match res.1 with
    | .error err =>
      ((Response.zero, some (Error.wrap "failed to reach google recaptcha api" err)), w)
    | .ok body => (Parse lib body, w)

/-- DoTimeout verifies a reCAPTCHA attempt through the default client `fasthttp`, bounded
by a timeout. -/
def DoTimeout {σ F T : Type} [Zero F] [Inhabited T] (fasthttp : Transport σ) (lib : Lib F T)
    (params : Request) (timeout : Duration) (w : World σ) :
    (Response F T × Option Error) × World σ :=
  match params.Validate with
  | some err =>
    ((Response.zero, some (Error.wrap "failed to validate recaptcha request" err)), w)
  | none =>
    let req := AcquireRequest
    let req := { req with Method := "POST" }
    let req := { req with ContentType := "application/x-www-form-urlencoded" }
    let req := { req with RequestURI := Endpoint }
    let req := params.MarshalTo req
    let res := fasthttp.DoTimeout req timeout w.net
    let w : World σ := { net := res.2, sent := w.sent ++ [req] }
    match res.1 with
    | .error err =>
      ((Response.zero, some (Error.wrap "failed to reach google recaptcha api" err)), w)
    | .ok body => (Parse lib body, w)

/-- Client wraps around a `fasthttp.Client`. -/
abbrev Client (σ : Type) := Transport σ

/-- The method `Do` of a client: the call goes through the wrapped client `c`. -/
def Client.Do {σ F T : Type} [Zero F] [Inhabited T] (c : Client σ) (lib : Lib F T)
    (params : Request) (w : World σ) : (Response F T × Option Error) × World σ :=
  match params.Validate with
  | some err =>
    ((Response.zero, some (Error.wrap "failed to validate recaptcha request" err)), w)
  | none =>
    let req := AcquireRequest
    let req := { req with Method := "POST" }
    let req := { req with ContentType := "application/x-www-form-urlencoded" }
    let req := { req with RequestURI := Endpoint }
    let req := params.MarshalTo req
    let res := Transport.Do c req w.net
    let w : World σ := { net := res.2, sent := w.sent ++ [req] }
    match res.1 with
    | .error err =>
      ((Response.zero, some (Error.wrap "failed to reach google recaptcha api" err)), w)
    | .ok body => (Parse lib body, w)

/-- The method `DoTimeout` of a client: the bounded call goes through the wrapped
client `c`. -/
def Client.DoTimeout {σ F T : Type} [Zero F] [Inhabited T] (c : Client σ) (lib : Lib F T)
    (params : Request) (timeout : Duration) (w : World σ) :
    (Response F T × Option Error) × World σ :=
  match params.Validate with
  | some err =>
    ((Response.zero, some (Error.wrap "failed to validate recaptcha request" err)), w)
  | none =>
    let req := AcquireRequest
    let req := { req with Method := "POST" }
    let req := { req with ContentType := "application/x-www-form-urlencoded" }
    let req := { req with RequestURI := Endpoint }
    let req := params.MarshalTo req
    let res := Transport.DoTimeout c req timeout w.net
    let w : World σ := { net := res.2, sent := w.sent ++ [req] }
    match res.1 with
    | .error err =>
      ((Response.zero, some (Error.wrap "failed to reach google recaptcha api" err)), w)
    | .ok body => (Parse lib body, w)

/-- The request that each of the four calls builds for valid parameters and hands to its
transport: a POST of the marshaled parameters to the endpoint. -/
def postRequest (params : Request) : HTTPRequest :=
  params.MarshalTo
    { Method := "POST", ContentType := "application/x-www-form-urlencoded",
      RequestURI := Endpoint, PostArgs := [] }

/-! ## Concrete collaborators, used to run the definitions on sample inputs -/

/-- The bytes of an ASCII text. -/
def bytes (s : String) : List UInt8 := s.toList.map (fun c => c.toNat.toUInt8)

/-- The failure body the live API answers to an invalid secret and token. -/
def failureBody : List UInt8 :=
  bytes "\x7b\"success\":false,\"error-codes\":[\"invalid-input-response\",\"invalid-input-secret\"]\x7d"

/-- The document of `failureBody`. -/
def failureDoc : Value :=
  .object [("success", .vfalse),
    ("error-codes", .array [.string "invalid-input-response", .string "invalid-input-secret"])]

/-- A v3 success body. -/
def successBody : List UInt8 :=
  bytes ("\x7b\"success\":true,\"score\":0.9,\"action\":\"login\"," ++
    "\"challenge_ts\":\"2020-04-01T12:00:00Z\",\"hostname\":\"example.com\"\x7d")

/-- The document of `successBody`. -/
def successDoc : Value :=
  .object [("success", .vtrue), ("score", .number "0.9"), ("action", .string "login"),
    ("challenge_ts", .string "2020-04-01T12:00:00Z"), ("hostname", .string "example.com")]

/-- A v2 success body: no score and no action. -/
def v2Body : List UInt8 :=
  bytes "\x7b\"success\":true,\"challenge_ts\":\"2020-04-01T12:00:00Z\",\"hostname\":\"example.com\"\x7d"

/-- The document of `v2Body`. -/
def v2Doc : Value :=
  .object [("success", .vtrue), ("challenge_ts", .string "2020-04-01T12:00:00Z"),
    ("hostname", .string "example.com")]

/-- A v2 success body from an Android application. -/
def apkBody : List UInt8 :=
  bytes ("\x7b\"success\":true,\"challenge_ts\":\"2020-04-01T12:00:00Z\"," ++
    "\"apk_package_name\":\"com.example.app\"\x7d")

/-- The document of `apkBody`. -/
def apkDoc : Value :=
  .object [("success", .vtrue), ("challenge_ts", .string "2020-04-01T12:00:00Z"),
    ("apk_package_name", .string "com.example.app")]

/-- A body without any field. -/
def emptyObjectBody : List UInt8 := bytes "\x7b\x7d"

/-- The document of `emptyObjectBody`. -/
def emptyObjectDoc : Value := .object []

/-- A body whose success field is a string. -/
def stringSuccessBody : List UInt8 := bytes "\x7b\"success\":\"true\"\x7d"

/-- The document of `stringSuccessBody`. -/
def stringSuccessDoc : Value := .object [("success", .string "true")]

/-- A success body without a timestamp. -/
def noTimestampBody : List UInt8 := bytes "\x7b\"success\":true,\"hostname\":\"example.com\"\x7d"

/-- The document of `noTimestampBody`. -/
def noTimestampDoc : Value := .object [("success", .vtrue), ("hostname", .string "example.com")]

/-- A success body whose timestamp is a number. -/
def numericTimestampBody : List UInt8 :=
  bytes "\x7b\"success\":true,\"challenge_ts\":1585742400,\"hostname\":\"example.com\"\x7d"

/-- The document of `numericTimestampBody`. -/
def numericTimestampDoc : Value :=
  .object [("success", .vtrue), ("challenge_ts", .number "1585742400"),
    ("hostname", .string "example.com")]

/-- A success body with neither a hostname nor a package name. -/
def noHostBody : List UInt8 := bytes "\x7b\"success\":true,\"challenge_ts\":\"2020-04-01T12:00:00Z\"\x7d"

/-- The document of `noHostBody`. -/
def noHostDoc : Value :=
  .object [("success", .vtrue), ("challenge_ts", .string "2020-04-01T12:00:00Z")]

/-- A failure body without error codes. -/
def noCodesBody : List UInt8 := bytes "\x7b\"success\":false\x7d"

/-- The document of `noCodesBody`. -/
def noCodesDoc : Value := .object [("success", .vfalse)]

/-- A failure body whose error codes are a string. -/
def stringCodesBody : List UInt8 :=
  bytes "\x7b\"success\":false,\"error-codes\":\"bad-request\"\x7d"

/-- The document of `stringCodesBody`. -/
def stringCodesDoc : Value :=
  .object [("success", .vfalse), ("error-codes", .string "bad-request")]

/-- A failure body with an empty array of error codes. -/
def emptyCodesBody : List UInt8 := bytes "\x7b\"success\":false,\"error-codes\":[]\x7d"

/-- The document of `emptyCodesBody`. -/
def emptyCodesDoc : Value := .object [("success", .vfalse), ("error-codes", .array [])]

/-- A failure body whose error codes are a string, a number and null. -/
def mixedCodesBody : List UInt8 :=
  bytes "\x7b\"success\":false,\"error-codes\":[\"bad-request\",7,null]\x7d"

/-- The document of `mixedCodesBody`. -/
def mixedCodesDoc : Value :=
  .object [("success", .vfalse),
    ("error-codes", .array [.string "bad-request", .number "7", .null])]

/-- A success body whose action is a number. -/
def numericActionBody : List UInt8 :=
  bytes ("\x7b\"success\":true,\"action\":7," ++
    "\"challenge_ts\":\"2020-04-01T12:00:00Z\",\"hostname\":\"example.com\"\x7d")

/-- The document of `numericActionBody`. -/
def numericActionDoc : Value :=
  .object [("success", .vtrue), ("action", .number "7"),
    ("challenge_ts", .string "2020-04-01T12:00:00Z"), ("hostname", .string "example.com")]

/-- A success body whose score is a string. -/
def stringScoreBody : List UInt8 :=
  bytes ("\x7b\"success\":true,\"score\":\"high\"," ++
    "\"challenge_ts\":\"2020-04-01T12:00:00Z\",\"hostname\":\"example.com\"\x7d")

/-- The document of `stringScoreBody`. -/
def stringScoreDoc : Value :=
  .object [("success", .vtrue), ("score", .string "high"),
    ("challenge_ts", .string "2020-04-01T12:00:00Z"), ("hostname", .string "example.com")]

/-- A success body whose hostname is null next to a package name. -/
def nullHostBody : List UInt8 :=
  bytes ("\x7b\"success\":true,\"challenge_ts\":\"2020-04-01T12:00:00Z\"," ++
    "\"hostname\":null,\"apk_package_name\":\"com.example.app\"\x7d")

/-- The document of `nullHostBody`. -/
def nullHostDoc : Value :=
  .object [("success", .vtrue), ("challenge_ts", .string "2020-04-01T12:00:00Z"),
    ("hostname", .null), ("apk_package_name", .string "com.example.app")]

/-- A success body that carries error codes. -/
def successWithCodesBody : List UInt8 :=
  bytes ("\x7b\"success\":true,\"error-codes\":[\"bad-request\"]," ++
    "\"challenge_ts\":\"2020-04-01T12:00:00Z\",\"hostname\":\"example.com\"\x7d")

/-- The document of `successWithCodesBody`. -/
def successWithCodesDoc : Value :=
  .object [("success", .vtrue), ("error-codes", .array [.string "bad-request"]),
    ("challenge_ts", .string "2020-04-01T12:00:00Z"), ("hostname", .string "example.com")]

/-- A v3 success body with neither a hostname nor a package name. -/
def v3NoHostBody : List UInt8 :=
  bytes ("\x7b\"success\":true,\"score\":0.9,\"action\":\"login\"," ++
    "\"challenge_ts\":\"2020-04-01T12:00:00Z\"\x7d")

/-- The document of `v3NoHostBody`. -/
def v3NoHostDoc : Value :=
  .object [("success", .vtrue), ("score", .number "0.9"), ("action", .string "login"),
    ("challenge_ts", .string "2020-04-01T12:00:00Z")]

/-- A v3 success body whose timestamp is not in RFC 3339 format. -/
def badTimestampBody : List UInt8 :=
  bytes ("\x7b\"success\":true,\"score\":0.9,\"action\":\"login\"," ++
    "\"challenge_ts\":\"yesterday\",\"hostname\":\"example.com\"\x7d")

/-- The document of `badTimestampBody`. -/
def badTimestampDoc : Value :=
  .object [("success", .vtrue), ("score", .number "0.9"), ("action", .string "login"),
    ("challenge_ts", .string "yesterday"), ("hostname", .string "example.com")]

/-- The sample bodies with their documents. -/
def sampleDocs : List (List UInt8 × Value) :=
  [(failureBody, failureDoc), (successBody, successDoc), (v2Body, v2Doc), (apkBody, apkDoc),
   (emptyObjectBody, emptyObjectDoc), (stringSuccessBody, stringSuccessDoc),
   (noTimestampBody, noTimestampDoc), (numericTimestampBody, numericTimestampDoc),
   (noHostBody, noHostDoc), (noCodesBody, noCodesDoc), (stringCodesBody, stringCodesDoc),
   (emptyCodesBody, emptyCodesDoc), (mixedCodesBody, mixedCodesDoc),
   (numericActionBody, numericActionDoc), (stringScoreBody, stringScoreDoc),
   (nullHostBody, nullHostDoc), (successWithCodesBody, successWithCodesDoc),
   (v3NoHostBody, v3NoHostDoc), (badTimestampBody, badTimestampDoc)]

/-- The document listed for a body. -/
def lookupDoc : List (List UInt8 × Value) → List UInt8 → Except Error Value
  | [], _ => .error (Error.new "cannot parse JSON")
  | (b, doc) :: rest, body => if body = b then .ok doc else lookupDoc rest body

/-- A sample library over rational scores and Unix seconds: a decoder that knows the
sample bodies and rejects every other body, a number conversion that knows `0.9`, and a
time conversion that knows one instant. -/
def sampleLib : Lib ℚ ℕ where
  ParseBytes := lookupDoc sampleDocs
  ParseFloat := fun raw =>
    if raw = "0.9" then (9 / 10, none) else (0, some (Error.new "cannot parse number"))
  ParseTime := fun s =>
    if s = "2020-04-01T12:00:00Z" then (1585742400, none)
    else (0, some (Error.new "cannot parse time"))

/-- A sample transport over a counter of answered requests: it answers every request
with `failureBody`, except that the bounded call fails when the timeout is not positive. -/
def sampleTransport : Transport ℕ where
  Do := fun _ n => (.ok failureBody, n + 1)
  DoTimeout := fun _ timeout n =>
    if timeout ≤ 0 then (.error (Error.new "timeout"), n + 1) else (.ok failureBody, n + 1)

/-- The request of the tests of the package. -/
def testRequest : Request := { Secret := "shhhh", Response := "hhhhhh", RemoteIP := "" }

/-- The error `fasthttp.ErrTimeout` that a bounded transport call reports on a timeout. -/
def ErrTimeout : Error := Error.new "timeout"

/-- A sample transport over a counter of answered requests that gives the same outcome
to every call. -/
def constTransport (outcome : Except Error (List UInt8)) : Transport ℕ where
  Do := fun _ n => (outcome, n + 1)
  DoTimeout := fun _ _ n => (outcome, n + 1)

/-- The verification call in the words of the specification, for the outcome of the
transport (an error, or the body delivered): a request that fails validation gives the
zero result and the wrapped validation error; a transport error gives the zero result and
the wrapped transport error; a delivered body gives the result of Parse on it. -/
def verifySpec {F T : Type} [Zero F] [Inhabited T] (lib : Lib F T) (params : Request)
    (outcome : Except Error (List UInt8)) : Response F T × Option Error :=
  match params.Validate with
  | some verr =>
    (Response.zero, some (Error.wrap "failed to validate recaptcha request" verr))
  | none =>
    match outcome with
    | .error e => (Response.zero, some (Error.wrap "failed to reach google recaptcha api" e))
    | .ok b => Parse lib b

/-! ## Request validation and marshaling -/

/-- Validate succeeds exactly when Secret and Response are both non-empty. -/
theorem Validate_both (r : Request) :
    r.Validate = none ↔ r.Secret ≠ "" ∧ r.Response ≠ "" := by
  unfold Request.Validate
  by_cases hs : r.Secret = "" <;> by_cases hr : r.Response = "" <;> simp [hs, hr]

/-- C4: Validate returns the secret error when Secret is empty (whatever Response is), the
response error when Secret is non-empty and Response is empty, and no error otherwise; it
succeeds exactly when both are non-empty, and RemoteIP plays no part. -/
theorem Validate_spec (r : Request) :
    (r.Secret = "" → r.Validate = some (Error.new "secret must not be empty")) ∧
    (r.Secret ≠ "" → r.Response = "" →
      r.Validate = some (Error.new "response must not be empty")) ∧
    (r.Secret ≠ "" → r.Response ≠ "" → r.Validate = none) ∧
    (r.Validate = none ↔ r.Secret ≠ "" ∧ r.Response ≠ "") ∧
    (∀ ip : String, ({ r with RemoteIP := ip } : Request).Validate = r.Validate) := by
  unfold Request.Validate
  by_cases hs : r.Secret = "" <;> by_cases hr : r.Response = "" <;> simp [hs, hr]

/-- Validate_spec at the request of the tests, and at requests with an empty field. -/
theorem Validate_spec_witness :
    testRequest.Validate = none ∧
    (Request.mk "" "" "1.2.3.4").Validate = some (Error.new "secret must not be empty") ∧
    (Request.mk "s" "" "").Validate = some (Error.new "response must not be empty") :=
  ⟨(Validate_spec testRequest).2.2.1 (by decide) (by decide),
   (Validate_spec (Request.mk "" "" "1.2.3.4")).1 rfl,
   (Validate_spec (Request.mk "s" "" "")).2.1 (by decide) rfl⟩

/-- C8: marshaling a valid request into a request with empty post arguments leaves
exactly the keys secret and response, plus remoteip exactly when RemoteIP is non-empty,
each mapped to the value of its field. -/
theorem MarshalTo_spec (r : Request) (req : HTTPRequest)
    (hvalid : r.Validate = none) (hempty : req.PostArgs = []) :
    let args := (r.MarshalTo req).PostArgs
    Args.keys args = (if r.RemoteIP = "" then ["secret", "response"]
      else ["secret", "response", "remoteip"]) ∧
    Args.Peek args "secret" = some r.Secret ∧
    Args.Peek args "response" = some r.Response ∧
    Args.Peek args "remoteip" = (if r.RemoteIP = "" then none else some r.RemoteIP) ∧
    ("remoteip" ∈ Args.keys args ↔ r.RemoteIP ≠ "") := by
  have _ := hvalid
  by_cases hip : r.RemoteIP = "" <;>
    simp [Request.MarshalTo, hempty, hip, Args.Set, Args.Peek, Args.keys]

/-- MarshalTo_spec at a request that carries a remote address. -/
theorem MarshalTo_spec_witness :
    (Request.mk "s" "t" "1.2.3.4").Validate = none ∧ AcquireRequest.PostArgs = [] ∧
    ((Request.mk "s" "t" "1.2.3.4").MarshalTo AcquireRequest).PostArgs =
      [("secret", "s"), ("response", "t"), ("remoteip", "1.2.3.4")] ∧
    Args.keys ((Request.mk "s" "t" "1.2.3.4").MarshalTo AcquireRequest).PostArgs =
      ["secret", "response", "remoteip"] :=
  ⟨by decide, rfl, by decide,
   (MarshalTo_spec (Request.mk "s" "t" "1.2.3.4") AcquireRequest (by decide) rfl).1⟩

/-! ## Response parsing -/

/-- C3: on a decoded body, Parse returns the not-found error when success is absent, and
an error wrapping the type error of the decoder when success is present but is neither
true nor false. -/
theorem Parse_success_required {F T : Type} [Zero F] [Inhabited T] (lib : Lib F T)
    (body : List UInt8) (val : Value) (hdoc : lib.ParseBytes body = .ok val) :
    (val.Get "success" = none →
      (Parse lib body).2 = some (Error.new "json field 'success' not found")) ∧
    (∀ v : Value, val.Get "success" = some v → v ≠ Value.vtrue → v ≠ Value.vfalse →
      ∃ e : Error,
        (Parse lib body).2 = some (Error.wrap "failed to parse json field 'success'" e)) := by
  refine ⟨fun h => ?_, fun v h ht hf => ?_⟩
  · simp [Parse, hdoc, h]
  · cases v <;> simp_all [Parse, Value.Bool]

/-- Parse_success_required at a body without fields and at a body whose success field is
a string. -/
theorem Parse_success_required_witness :
    sampleLib.ParseBytes emptyObjectBody = .ok emptyObjectDoc ∧
    (Parse sampleLib emptyObjectBody).2 = some (Error.new "json field 'success' not found") ∧
    ∃ e : Error, (Parse sampleLib stringSuccessBody).2 =
      some (Error.wrap "failed to parse json field 'success'" e) :=
  ⟨rfl, (Parse_success_required sampleLib emptyObjectBody emptyObjectDoc rfl).1 rfl,
   (Parse_success_required sampleLib stringSuccessBody stringSuccessDoc rfl).2
     (Value.string "true") rfl (by simp) (by simp)⟩

/-- The failure path of Parse: success is false and error-codes is an array. -/
theorem Parse_of_failure {F T : Type} [Zero F] [Inhabited T] (lib : Lib F T)
    (body : List UInt8) (val : Value) (a : List Value)
    (hdoc : lib.ParseBytes body = .ok val)
    (hs : val.Get "success" = some Value.vfalse)
    (hc : val.Get "error-codes" = some (Value.array a)) :
    Parse lib body =
      ({ (Response.zero : Response F T) with ErrorCodes := a.map Value.GetStringBytes },
        none) := by
  simp [Parse, hdoc, hs, hc, Value.Bool, Value.Array, Response.zero]

/-- C2: a body whose success is false and whose error-codes is an array of N elements
parses without error to Success false, N error codes, and zero Score, Action,
ChallengeTS and Hostname, whatever the other fields of the body are. -/
theorem Parse_failure_body {F T : Type} [Zero F] [Inhabited T] (lib : Lib F T)
    (body : List UInt8) (val : Value) (a : List Value)
    (hdoc : lib.ParseBytes body = .ok val)
    (hs : val.Get "success" = some Value.vfalse)
    (hc : val.Get "error-codes" = some (Value.array a)) :
    (Parse lib body).2 = none ∧
    (Parse lib body).1.Success = false ∧
    (Parse lib body).1.ErrorCodes.length = a.length ∧
    (Parse lib body).1.Score = 0 ∧
    (Parse lib body).1.Action = "" ∧
    (Parse lib body).1.ChallengeTS = default ∧
    (Parse lib body).1.Hostname = "" := by
  rw [Parse_of_failure lib body val a hdoc hs hc]
  simp [Response.zero]

/-- Parse_failure_body at the failure body of the live API. -/
theorem Parse_failure_body_witness :
    (Parse sampleLib failureBody).2 = none ∧
    (Parse sampleLib failureBody).1.Success = false ∧
    (Parse sampleLib failureBody).1.ErrorCodes.length = 2 :=
  have h := Parse_failure_body sampleLib failureBody failureDoc
    [.string "invalid-input-response", .string "invalid-input-secret"] rfl rfl rfl
  ⟨h.1, h.2.1, h.2.2.1⟩

/-- A value whose string bytes the time library accepts is an RFC 3339 string, when the
library rejects the empty text. -/
theorem isRFC3339_of_ParseTime {F T : Type} (lib : Lib F T)
    (hempty : (lib.ParseTime "").2 ≠ none) (ts : Value)
    (h : (lib.ParseTime ts.GetStringBytes).2 = none) : isRFC3339 lib ts = true := by
  cases ts <;> simp_all [isRFC3339, Value.GetStringBytes]

/-- The time library accepts the string bytes of an RFC 3339 string. -/
theorem ParseTime_of_isRFC3339 {F T : Type} (lib : Lib F T) (ts : Value)
    (h : isRFC3339 lib ts = true) : (lib.ParseTime ts.GetStringBytes).2 = none := by
  cases ts <;> simp_all [isRFC3339, Value.GetStringBytes]

/-- The time library reports an error on the string bytes of a value that is not an
RFC 3339 string, when it rejects the empty text. -/
theorem ParseTime_of_not_isRFC3339 {F T : Type} (lib : Lib F T)
    (hempty : (lib.ParseTime "").2 ≠ none) (ts : Value)
    (h : isRFC3339 lib ts = false) : (lib.ParseTime ts.GetStringBytes).2 ≠ none := by
  intro hn
  rw [isRFC3339_of_ParseTime lib hempty ts hn] at h
  exact Bool.noConfusion h

/-- C1: Parse fails closed. When the time library rejects the empty text, an error-free
result with Success true comes only from a body that decodes, whose success is the
boolean true, whose challenge_ts is a string the time library accepts as RFC 3339, and
which has a hostname or an apk_package_name field. -/
theorem Parse_fails_closed {F T : Type} [Zero F] [Inhabited T] (lib : Lib F T)
    (body : List UInt8) (hempty : (lib.ParseTime "").2 ≠ none)
    (hok : (Parse lib body).2 = none) (hsucc : (Parse lib body).1.Success = true) :
    ∃ val : Value, lib.ParseBytes body = .ok val ∧
      val.Get "success" = some Value.vtrue ∧
      (∃ ts : Value, val.Get "challenge_ts" = some ts ∧ isRFC3339 lib ts = true) ∧
      (val.Get "hostname" ≠ none ∨ val.Get "apk_package_name" ≠ none) := by
  cases hdoc : lib.ParseBytes body with
  | error e => simp [Parse, hdoc] at hok
  | ok val =>
    refine ⟨val, rfl, ?_⟩
    cases hs : val.Get "success" with
    | none => simp [Parse, hdoc, hs] at hok
    | some v =>
      cases v with
      | vtrue =>
        refine ⟨rfl, ?_⟩
        cases hts : val.Get "challenge_ts" with
        | none =>
          cases hsc : val.Get "score" <;>
            simp [Parse, hdoc, hs, hsc, hts, Value.Bool] at hok
          split at hok <;> simp at hok
        | some ts =>
          have key : (lib.ParseTime ts.GetStringBytes).2 = none ∧
              (val.Get "hostname" ≠ none ∨ val.Get "apk_package_name" ≠ none) := by
            cases hsc : val.Get "score" <;> cases hh : val.Get "hostname" <;>
              cases hapk : val.Get "apk_package_name" <;>
              simp [Parse, hdoc, hs, hsc, hts, hh, hapk, Value.Bool] at hok ⊢ <;>
              (repeat' split at hok) <;> simp_all
          exact ⟨⟨ts, rfl, isRFC3339_of_ParseTime lib hempty ts key.1⟩, key.2⟩
      | vfalse =>
        simp [Parse, hdoc, hs, Value.Bool] at hsucc
        (repeat' split at hsucc) <;> simp_all [Response.zero]
      | _ => simp [Parse, hdoc, hs, Value.Bool] at hok

/-- Parse_fails_closed at the v3 success body. -/
theorem Parse_fails_closed_witness :
    (sampleLib.ParseTime "").2 ≠ none ∧ (Parse sampleLib successBody).2 = none ∧
    (Parse sampleLib successBody).1.Success = true ∧
    ∃ val : Value, sampleLib.ParseBytes successBody = .ok val ∧
      val.Get "success" = some Value.vtrue ∧
      (∃ ts : Value, val.Get "challenge_ts" = some ts ∧ isRFC3339 sampleLib ts = true) ∧
      (val.Get "hostname" ≠ none ∨ val.Get "apk_package_name" ≠ none) :=
  ⟨by decide, by decide, by decide,
   Parse_fails_closed sampleLib successBody (by decide) (by decide) (by decide)⟩

/-- The string bytes of a string value are its content. -/
theorem GetStringBytes_string (s : String) : (Value.string s).GetStringBytes = s := rfl

/-- C5: on a success body (success true, an RFC 3339 challenge_ts, hostname present), a
score that is a number with float64 value x and an action that is a string a parse
without error to Score x and Action a; with both fields absent the body parses without
error to Score 0 and the empty Action. -/
theorem Parse_score_action {F T : Type} [Zero F] [Inhabited T] (lib : Lib F T)
    (body : List UInt8) (val ts host : Value)
    (hdoc : lib.ParseBytes body = .ok val)
    (hs : val.Get "success" = some Value.vtrue)
    (hts : val.Get "challenge_ts" = some ts) (hvalid : isRFC3339 lib ts = true)
    (hhost : val.Get "hostname" = some host) :
    (∀ (raw : String) (x : F) (a : String),
      val.Get "score" = some (Value.number raw) → lib.ParseFloat raw = (x, none) →
      val.Get "action" = some (Value.string a) →
      (Parse lib body).2 = none ∧ (Parse lib body).1.Score = x ∧
        (Parse lib body).1.Action = a) ∧
    (val.Get "score" = none → val.Get "action" = none →
      (Parse lib body).2 = none ∧ (Parse lib body).1.Score = 0 ∧
        (Parse lib body).1.Action = "") := by
  have ht := ParseTime_of_isRFC3339 lib ts hvalid
  refine ⟨fun raw x a hsc hx hac => ?_, fun hsc hac => ?_⟩
  · simp [Parse, hdoc, hs, hsc, hac, hts, hhost, ht, hx, Value.Bool, Value.Float64,
      GetStringBytes_string]
  · simp [Parse, hdoc, hs, hsc, hac, hts, hhost, ht, Value.Bool, Response.zero]

/-- Parse_score_action at the v3 success body and at the v2 success body. -/
theorem Parse_score_action_witness :
    ((Parse sampleLib successBody).2 = none ∧ (Parse sampleLib successBody).1.Score = 9 / 10 ∧
      (Parse sampleLib successBody).1.Action = "login") ∧
    ((Parse sampleLib v2Body).2 = none ∧ (Parse sampleLib v2Body).1.Score = 0 ∧
      (Parse sampleLib v2Body).1.Action = "") :=
  ⟨(Parse_score_action sampleLib successBody successDoc (.string "2020-04-01T12:00:00Z")
      (.string "example.com") rfl rfl rfl (by decide) rfl).1 "0.9" (9 / 10) "login" rfl rfl rfl,
   (Parse_score_action sampleLib v2Body v2Doc (.string "2020-04-01T12:00:00Z")
      (.string "example.com") rfl rfl rfl (by decide) rfl).2 rfl rfl⟩

/-- C6: on a body with success true, Parse returns an error when challenge_ts is absent,
and when it is present but is not a string that the time library accepts as RFC 3339
(a value that is no string at all included), the time library rejecting the empty text. -/
theorem Parse_challenge_ts_required {F T : Type} [Zero F] [Inhabited T] (lib : Lib F T)
    (body : List UInt8) (val : Value) (hempty : (lib.ParseTime "").2 ≠ none)
    (hdoc : lib.ParseBytes body = .ok val)
    (hs : val.Get "success" = some Value.vtrue) :
    (val.Get "challenge_ts" = none → (Parse lib body).2 ≠ none) ∧
    (∀ ts : Value, val.Get "challenge_ts" = some ts → isRFC3339 lib ts = false →
      (Parse lib body).2 ≠ none) := by
  refine ⟨fun hts => ?_, fun ts hts hbad => ?_⟩
  · cases hsc : val.Get "score" <;>
      simp [Parse, hdoc, hs, hsc, hts, Value.Bool]
    split <;> simp
  · have ht := ParseTime_of_not_isRFC3339 lib hempty ts hbad
    cases hsc : val.Get "score" <;>
      simp [Parse, hdoc, hs, hsc, hts, Value.Bool] <;>
      (repeat' split) <;> simp_all

/-- Parse_challenge_ts_required at a success body without a timestamp and at one whose
timestamp is a number. -/
theorem Parse_challenge_ts_required_witness :
    (sampleLib.ParseTime "").2 ≠ none ∧
    (Parse sampleLib noTimestampBody).2 ≠ none ∧
    (Parse sampleLib numericTimestampBody).2 ≠ none :=
  ⟨by decide,
   (Parse_challenge_ts_required sampleLib noTimestampBody noTimestampDoc (by decide) rfl rfl).1
     rfl,
   (Parse_challenge_ts_required sampleLib numericTimestampBody numericTimestampDoc (by decide)
     rfl rfl).2 (.number "1585742400") rfl rfl⟩

/-- C7: on a body with success true, an RFC 3339 challenge_ts and a score that is absent
or converts, Parse returns the not-found error when neither hostname nor
apk_package_name is present, and when only apk_package_name is present with a string
value it returns no error and that string as Hostname. -/
theorem Parse_hostname_fallback {F T : Type} [Zero F] [Inhabited T] (lib : Lib F T)
    (body : List UInt8) (val ts : Value)
    (hdoc : lib.ParseBytes body = .ok val)
    (hs : val.Get "success" = some Value.vtrue)
    (hts : val.Get "challenge_ts" = some ts) (hvalid : isRFC3339 lib ts = true)
    (hscore : ∀ sc : Value, val.Get "score" = some sc → (sc.Float64 lib).2 = none)
    (hhost : val.Get "hostname" = none) :
    (val.Get "apk_package_name" = none →
      (Parse lib body).2 =
        some (Error.new "both json fields 'hostname' and 'apk_package_name' not found")) ∧
    (∀ name : String, val.Get "apk_package_name" = some (Value.string name) →
      (Parse lib body).2 = none ∧ (Parse lib body).1.Hostname = name) := by
  have ht := ParseTime_of_isRFC3339 lib ts hvalid
  refine ⟨fun hapk => ?_, fun name hapk => ?_⟩
  · cases hsc : val.Get "score" with
    | none => simp [Parse, hdoc, hs, hsc, hts, hhost, hapk, ht, Value.Bool]
    | some sc =>
      have := hscore sc hsc
      simp [Parse, hdoc, hs, hsc, hts, hhost, hapk, ht, this, Value.Bool]
  · cases hsc : val.Get "score" with
    | none =>
      simp [Parse, hdoc, hs, hsc, hts, hhost, hapk, ht, Value.Bool, GetStringBytes_string]
    | some sc =>
      have := hscore sc hsc
      simp [Parse, hdoc, hs, hsc, hts, hhost, hapk, ht, this, Value.Bool,
        GetStringBytes_string]

/-- Parse_hostname_fallback at a success body without host and at the Android body. -/
theorem Parse_hostname_fallback_witness :
    (Parse sampleLib noHostBody).2 =
      some (Error.new "both json fields 'hostname' and 'apk_package_name' not found") ∧
    (Parse sampleLib apkBody).2 = none ∧
    (Parse sampleLib apkBody).1.Hostname = "com.example.app" :=
  ⟨(Parse_hostname_fallback sampleLib noHostBody noHostDoc (.string "2020-04-01T12:00:00Z")
      rfl rfl rfl (by decide) (by intro sc h; cases h) rfl).1 rfl,
   (Parse_hostname_fallback sampleLib apkBody apkDoc (.string "2020-04-01T12:00:00Z")
      rfl rfl rfl (by decide) (by intro sc h; cases h) rfl).2 "com.example.app" rfl⟩

/-! ## The four calls -/

/-- C9: for a request with an empty Secret or an empty Response, each of the four calls
returns the zero Response with an error wrapping the validation error, and leaves the
world as it was: the network state is untouched and no request was handed to a
transport. -/
theorem calls_reject_invalid {σ F T : Type} [Zero F] [Inhabited T] (fasthttp : Transport σ)
    (c : Client σ) (lib : Lib F T) (params : Request) (timeout : Duration) (w : World σ)
    (h : params.Secret = "" ∨ params.Response = "") :
    ∃ verr : Error, params.Validate = some verr ∧
      Do fasthttp lib params w =
        ((Response.zero, some (Error.wrap "failed to validate recaptcha request" verr)), w) ∧
      DoTimeout fasthttp lib params timeout w =
        ((Response.zero, some (Error.wrap "failed to validate recaptcha request" verr)), w) ∧
      Client.Do c lib params w =
        ((Response.zero, some (Error.wrap "failed to validate recaptcha request" verr)), w) ∧
      Client.DoTimeout c lib params timeout w =
        ((Response.zero, some (Error.wrap "failed to validate recaptcha request" verr)), w) := by
  cases hv : params.Validate with
  | none =>
    have hboth := (Validate_both params).mp hv
    rcases h with h | h
    · exact absurd h hboth.1
    · exact absurd h hboth.2
  | some verr =>
    exact ⟨verr, rfl, by simp [Do, hv], by simp [DoTimeout, hv], by simp [Client.Do, hv],
      by simp [Client.DoTimeout, hv]⟩

/-- The calls calls_reject_invalid speaks of, on a request with an empty secret. -/
theorem calls_reject_invalid_witness :
    ∃ verr : Error, (Request.mk "" "hhhhhh" "").Validate = some verr ∧
      Do sampleTransport sampleLib (Request.mk "" "hhhhhh" "") ⟨0, []⟩ =
        ((Response.zero, some (Error.wrap "failed to validate recaptcha request" verr)),
          ⟨0, []⟩) ∧
      DoTimeout sampleTransport sampleLib (Request.mk "" "hhhhhh" "") 3000000000 ⟨0, []⟩ =
        ((Response.zero, some (Error.wrap "failed to validate recaptcha request" verr)),
          ⟨0, []⟩) ∧
      Client.Do sampleTransport sampleLib (Request.mk "" "hhhhhh" "") ⟨0, []⟩ =
        ((Response.zero, some (Error.wrap "failed to validate recaptcha request" verr)),
          ⟨0, []⟩) ∧
      Client.DoTimeout sampleTransport sampleLib (Request.mk "" "hhhhhh" "") 3000000000
          ⟨0, []⟩ =
        ((Response.zero, some (Error.wrap "failed to validate recaptcha request" verr)),
          ⟨0, []⟩) :=
  calls_reject_invalid sampleTransport sampleTransport sampleLib (Request.mk "" "hhhhhh" "")
    3000000000 ⟨0, []⟩ (Or.inl rfl)

/-- C10: for a valid request, each of the four calls whose transport completes without
error and delivers the body b returns exactly the result of Parse on b; and when b
decodes to success false with an error-codes array of N > 0 elements, that result is no
error, Success false and N error codes. -/
theorem calls_return_Parse {σ F T : Type} [Zero F] [Inhabited T] (fasthttp : Transport σ)
    (c : Client σ) (lib : Lib F T) (params : Request) (timeout : Duration) (w : World σ)
    (b : List UInt8) (hvalid : params.Validate = none) :
    ((fasthttp.Do (postRequest params) w.net).1 = .ok b →
      (Do fasthttp lib params w).1 = Parse lib b) ∧
    ((fasthttp.DoTimeout (postRequest params) timeout w.net).1 = .ok b →
      (DoTimeout fasthttp lib params timeout w).1 = Parse lib b) ∧
    ((Transport.Do c (postRequest params) w.net).1 = .ok b →
      (Client.Do c lib params w).1 = Parse lib b) ∧
    ((Transport.DoTimeout c (postRequest params) timeout w.net).1 = .ok b →
      (Client.DoTimeout c lib params timeout w).1 = Parse lib b) ∧
    (∀ (val : Value) (a : List Value), lib.ParseBytes b = .ok val →
      val.Get "success" = some Value.vfalse → val.Get "error-codes" = some (Value.array a) →
      0 < a.length →
      (Parse lib b).2 = none ∧ (Parse lib b).1.Success = false ∧
        (Parse lib b).1.ErrorCodes.length = a.length ∧ (Parse lib b).1.ErrorCodes ≠ []) := by
  refine ⟨fun h => ?_, fun h => ?_, fun h => ?_, fun h => ?_, fun val a hdoc hs hc hN => ?_⟩
  · simp only [postRequest] at h
    simp [Do, hvalid, AcquireRequest, h]
  · simp only [postRequest] at h
    simp [DoTimeout, hvalid, AcquireRequest, h]
  · simp only [postRequest] at h
    simp [Client.Do, hvalid, AcquireRequest, h]
  · simp only [postRequest] at h
    simp [Client.DoTimeout, hvalid, AcquireRequest, h]
  · rw [Parse_of_failure lib b val a hdoc hs hc]
    refine ⟨rfl, by simp [Response.zero], by simp, ?_⟩
    cases a with
    | nil => simp at hN
    | cons x xs => simp

/-- The calls calls_return_Parse speaks of, on the request of the tests against a
transport that answers with the failure body of the live API. -/
theorem calls_return_Parse_witness :
    testRequest.Validate = none ∧
    (Do sampleTransport sampleLib testRequest ⟨0, []⟩).1 = Parse sampleLib failureBody ∧
    (DoTimeout sampleTransport sampleLib testRequest 3000000000 ⟨0, []⟩).1 =
      Parse sampleLib failureBody ∧
    (Client.Do sampleTransport sampleLib testRequest ⟨0, []⟩).1 =
      Parse sampleLib failureBody ∧
    (Client.DoTimeout sampleTransport sampleLib testRequest 3000000000 ⟨0, []⟩).1 =
      Parse sampleLib failureBody ∧
    ((Parse sampleLib failureBody).2 = none ∧ (Parse sampleLib failureBody).1.Success = false ∧
      (Parse sampleLib failureBody).1.ErrorCodes.length = 2 ∧
      (Parse sampleLib failureBody).1.ErrorCodes ≠ []) :=
  have h := calls_return_Parse sampleTransport sampleTransport sampleLib testRequest
    3000000000 ⟨0, []⟩ failureBody (by decide)
  ⟨by decide, h.1 rfl, h.2.1 rfl, h.2.2.1 rfl, h.2.2.2.1 rfl,
   h.2.2.2.2 failureDoc [.string "invalid-input-response", .string "invalid-input-secret"]
     rfl rfl rfl (by decide)⟩

/-! ## The four calls against the call of the specification -/

/-- The package-level Do returns what the call of the specification returns on the
outcome of its transport. -/
theorem Do_eq_verifySpec {σ F T : Type} [Zero F] [Inhabited T] (fasthttp : Transport σ)
    (lib : Lib F T) (params : Request) (w : World σ) :
    (Do fasthttp lib params w).1 =
      verifySpec lib params (fasthttp.Do (postRequest params) w.net).1 := by
  unfold Do verifySpec postRequest AcquireRequest
  cases params.Validate with
  | some verr => rfl
  | none =>
    simp only []
    split <;> simp_all

/-- The package-level DoTimeout returns what the call of the specification returns on the
outcome of its transport. -/
theorem DoTimeout_eq_verifySpec {σ F T : Type} [Zero F] [Inhabited T]
    (fasthttp : Transport σ) (lib : Lib F T) (params : Request) (timeout : Duration)
    (w : World σ) :
    (DoTimeout fasthttp lib params timeout w).1 =
      verifySpec lib params (fasthttp.DoTimeout (postRequest params) timeout w.net).1 := by
  unfold DoTimeout verifySpec postRequest AcquireRequest
  cases params.Validate with
  | some verr => rfl
  | none =>
    simp only []
    split <;> simp_all

/-- The method Do of a client returns what the call of the specification returns on the
outcome of its transport. -/
theorem Client_Do_eq_verifySpec {σ F T : Type} [Zero F] [Inhabited T] (c : Client σ)
    (lib : Lib F T) (params : Request) (w : World σ) :
    (Client.Do c lib params w).1 =
      verifySpec lib params (Transport.Do c (postRequest params) w.net).1 := by
  unfold Client.Do verifySpec postRequest AcquireRequest
  cases params.Validate with
  | some verr => rfl
  | none =>
    simp only []
    split <;> simp_all

/-- The method DoTimeout of a client returns what the call of the specification returns
on the outcome of its transport. -/
theorem Client_DoTimeout_eq_verifySpec {σ F T : Type} [Zero F] [Inhabited T] (c : Client σ)
    (lib : Lib F T) (params : Request) (timeout : Duration) (w : World σ) :
    (Client.DoTimeout c lib params timeout w).1 =
      verifySpec lib params (Transport.DoTimeout c (postRequest params) timeout w.net).1 := by
  unfold Client.DoTimeout verifySpec postRequest AcquireRequest
  cases params.Validate with
  | some verr => rfl
  | none =>
    simp only []
    split <;> simp_all

/-- The call of the specification returns the zero result, or the result of Parse on the
body that the transport delivered. -/
theorem verifySpec_zero_or_Parse {F T : Type} [Zero F] [Inhabited T] (lib : Lib F T)
    (params : Request) (outcome : Except Error (List UInt8)) :
    (verifySpec lib params outcome).1 = Response.zero ∨
      ∃ b : List UInt8, outcome = .ok b ∧ verifySpec lib params outcome = Parse lib b := by
  unfold verifySpec
  cases params.Validate with
  | some verr => exact Or.inl rfl
  | none =>
    cases outcome with
    | error e => exact Or.inl rfl
    | ok b => exact Or.inr ⟨b, rfl, rfl⟩

/-! ## What comes back next to an error -/

/-- C11, as stated, fails: on a success body without hostname and package name, Parse
returns an error next to a result with Success true and the timestamp read so far, not
the zero Response; and Do hands the same pair to its caller. -/
theorem Parse_partial_result_counterexample :
    sampleLib.ParseBytes noHostBody = .ok noHostDoc ∧
    (Parse sampleLib noHostBody).2 =
      some (Error.new "both json fields 'hostname' and 'apk_package_name' not found") ∧
    (Parse sampleLib noHostBody).1.Success = true ∧
    (Parse sampleLib noHostBody).1.ChallengeTS = 1585742400 ∧
    (Parse sampleLib noHostBody).1 ≠ Response.zero ∧
    (Do (constTransport (.ok noHostBody)) sampleLib testRequest ⟨0, []⟩).1.2 ≠ none ∧
    (Do (constTransport (.ok noHostBody)) sampleLib testRequest ⟨0, []⟩).1.1 ≠
      Response.zero := by
  refine ⟨rfl, by decide, by decide, by decide, ?_, by decide, ?_⟩
  · intro h
    have hs := congrArg Response.Success h
    revert hs
    decide
  · intro h
    have hs := congrArg Response.Success h
    revert hs
    decide

/-- The result of Parse on a body with success true whose score is absent or converts to
`score`, whose action reads as `action`, and whose later fields reach the returns after the
v3 fields: the missing timestamp, the rejected timestamp, and the missing host. -/
theorem Parse_late_error {F T : Type} [Zero F] [Inhabited T] (lib : Lib F T)
    (body : List UInt8) (val : Value) (score : F) (action : String)
    (hdoc : lib.ParseBytes body = .ok val)
    (hs : val.Get "success" = some Value.vtrue)
    (hscore : (val.Get "score" = none ∧ score = 0) ∨
      ∃ sc : Value, val.Get "score" = some sc ∧ sc.Float64 lib = (score, none))
    (haction : (val.Get "action" = none ∧ action = "") ∨
      ∃ av : Value, val.Get "action" = some av ∧ av.GetStringBytes = action) :
    (val.Get "challenge_ts" = none →
      Parse lib body =
        ({ Success := true, Score := score, Action := action, ChallengeTS := default,
           Hostname := "", ErrorCodes := [] },
         some (Error.new "json field 'challenge_ts' not found"))) ∧
    (∀ (ts : Value) (e : Error), val.Get "challenge_ts" = some ts →
      (lib.ParseTime ts.GetStringBytes).2 = some e →
      Parse lib body =
        ({ Success := true, Score := score, Action := action,
           ChallengeTS := (lib.ParseTime ts.GetStringBytes).1, Hostname := "",
           ErrorCodes := [] },
         some (Error.wrap "failed to parse json field 'challenge_ts'" e))) ∧
    (∀ ts : Value, val.Get "challenge_ts" = some ts →
      (lib.ParseTime ts.GetStringBytes).2 = none →
      val.Get "hostname" = none → val.Get "apk_package_name" = none →
      Parse lib body =
        ({ Success := true, Score := score, Action := action,
           ChallengeTS := (lib.ParseTime ts.GetStringBytes).1, Hostname := "",
           ErrorCodes := [] },
         some (Error.new "both json fields 'hostname' and 'apk_package_name' not found"))) := by
  rcases hscore with ⟨hsc, rfl⟩ | ⟨sc, hsc, hf⟩ <;>
    rcases haction with ⟨hac, rfl⟩ | ⟨av, hac, rfl⟩ <;>
    refine ⟨fun hts => ?_, fun ts e hts he => ?_, fun ts hts ht hh hapk => ?_⟩ <;>
    simp_all [Parse, Value.Bool, Response.zero]

/-- The result of each call of the specification, by the three outcomes. -/
theorem verifySpec_cases {F T : Type} [Zero F] [Inhabited T] (lib : Lib F T)
    (params : Request) (outcome : Except Error (List UInt8)) :
    (∀ verr : Error, params.Validate = some verr →
      verifySpec lib params outcome =
        (Response.zero, some (Error.wrap "failed to validate recaptcha request" verr))) ∧
    (params.Validate = none →
      (∀ e : Error, outcome = .error e →
        verifySpec lib params outcome =
          (Response.zero, some (Error.wrap "failed to reach google recaptcha api" e))) ∧
      (∀ b : List UInt8, outcome = .ok b → verifySpec lib params outcome = Parse lib b)) := by
  refine ⟨fun verr hv => ?_, fun hv => ⟨fun e he => ?_, fun b hb => ?_⟩⟩
  · simp [verifySpec, hv]
  · simp [verifySpec, hv, he]
  · simp [verifySpec, hv, hb]

/-- C11, amended: next to an error, Parse returns the zero Response whenever success was
not read as true (the body does not decode, success is absent or no boolean, or the
failure path fails). When success is true and a later field fails, the result next to the
error has Success true, empty Hostname and ErrorCodes, and exactly the fields read before
the failure: on a score error the Score that Float64 returned; on a missing timestamp the
Score and Action read; on a rejected timestamp or a missing host also the ChallengeTS that
time.Parse returned; and one of these four is the failure. Each of the four calls returns
the zero Response with the wrapped validation error or the wrapped transport error, and
otherwise exactly the pair of Parse on the body its transport delivered. -/
theorem Parse_error_result {σ F T : Type} [Zero F] [Inhabited T] (fasthttp : Transport σ)
    (c : Client σ) (lib : Lib F T) (params : Request) (timeout : Duration) (w : World σ) :
    (∀ body : List UInt8, (Parse lib body).2 ≠ none →
      (∀ val : Value, lib.ParseBytes body = .ok val →
        val.Get "success" ≠ some Value.vtrue) →
      (Parse lib body).1 = Response.zero) ∧
    (∀ (body : List UInt8) (val : Value), (Parse lib body).2 ≠ none →
      lib.ParseBytes body = .ok val → val.Get "success" = some Value.vtrue →
      ((Parse lib body).1.Success = true ∧ (Parse lib body).1.Hostname = "" ∧
        (Parse lib body).1.ErrorCodes = []) ∧
      ((∃ (sc : Value) (e : Error), val.Get "score" = some sc ∧
          (sc.Float64 lib).2 = some e) ∨
        val.Get "challenge_ts" = none ∨
        (∃ (ts : Value) (e : Error), val.Get "challenge_ts" = some ts ∧
          (lib.ParseTime ts.GetStringBytes).2 = some e) ∨
        (val.Get "hostname" = none ∧ val.Get "apk_package_name" = none))) ∧
    (∀ (body : List UInt8) (val sc : Value) (e : Error),
      lib.ParseBytes body = .ok val → val.Get "success" = some Value.vtrue →
      val.Get "score" = some sc → (sc.Float64 lib).2 = some e →
      Parse lib body =
        ({ Success := true, Score := (sc.Float64 lib).1, Action := "",
           ChallengeTS := default, Hostname := "", ErrorCodes := [] },
         some (Error.wrap "failed to parse json field 'score'" e))) ∧
    (∀ (body : List UInt8) (val : Value) (score : F) (action : String),
      lib.ParseBytes body = .ok val → val.Get "success" = some Value.vtrue →
      ((val.Get "score" = none ∧ score = 0) ∨
        ∃ sc : Value, val.Get "score" = some sc ∧ sc.Float64 lib = (score, none)) →
      ((val.Get "action" = none ∧ action = "") ∨
        ∃ av : Value, val.Get "action" = some av ∧ av.GetStringBytes = action) →
      (val.Get "challenge_ts" = none →
        Parse lib body =
          ({ Success := true, Score := score, Action := action, ChallengeTS := default,
             Hostname := "", ErrorCodes := [] },
           some (Error.new "json field 'challenge_ts' not found"))) ∧
      (∀ (ts : Value) (e : Error), val.Get "challenge_ts" = some ts →
        (lib.ParseTime ts.GetStringBytes).2 = some e →
        Parse lib body =
          ({ Success := true, Score := score, Action := action,
             ChallengeTS := (lib.ParseTime ts.GetStringBytes).1, Hostname := "",
             ErrorCodes := [] },
           some (Error.wrap "failed to parse json field 'challenge_ts'" e))) ∧
      (∀ ts : Value, val.Get "challenge_ts" = some ts →
        (lib.ParseTime ts.GetStringBytes).2 = none →
        val.Get "hostname" = none → val.Get "apk_package_name" = none →
        Parse lib body =
          ({ Success := true, Score := score, Action := action,
             ChallengeTS := (lib.ParseTime ts.GetStringBytes).1, Hostname := "",
             ErrorCodes := [] },
           some (Error.new
             "both json fields 'hostname' and 'apk_package_name' not found")))) ∧
    ((∀ verr : Error, params.Validate = some verr →
        (Do fasthttp lib params w).1 =
          (Response.zero, some (Error.wrap "failed to validate recaptcha request" verr))) ∧
      (params.Validate = none →
        (∀ e : Error, (fasthttp.Do (postRequest params) w.net).1 = .error e →
          (Do fasthttp lib params w).1 =
            (Response.zero, some (Error.wrap "failed to reach google recaptcha api" e))) ∧
        (∀ b : List UInt8, (fasthttp.Do (postRequest params) w.net).1 = .ok b →
          (Do fasthttp lib params w).1 = Parse lib b))) ∧
    ((∀ verr : Error, params.Validate = some verr →
        (DoTimeout fasthttp lib params timeout w).1 =
          (Response.zero, some (Error.wrap "failed to validate recaptcha request" verr))) ∧
      (params.Validate = none →
        (∀ e : Error, (fasthttp.DoTimeout (postRequest params) timeout w.net).1 = .error e →
          (DoTimeout fasthttp lib params timeout w).1 =
            (Response.zero, some (Error.wrap "failed to reach google recaptcha api" e))) ∧
        (∀ b : List UInt8, (fasthttp.DoTimeout (postRequest params) timeout w.net).1 = .ok b →
          (DoTimeout fasthttp lib params timeout w).1 = Parse lib b))) ∧
    ((∀ verr : Error, params.Validate = some verr →
        (Client.Do c lib params w).1 =
          (Response.zero, some (Error.wrap "failed to validate recaptcha request" verr))) ∧
      (params.Validate = none →
        (∀ e : Error, (Transport.Do c (postRequest params) w.net).1 = .error e →
          (Client.Do c lib params w).1 =
            (Response.zero, some (Error.wrap "failed to reach google recaptcha api" e))) ∧
        (∀ b : List UInt8, (Transport.Do c (postRequest params) w.net).1 = .ok b →
          (Client.Do c lib params w).1 = Parse lib b))) ∧
    ((∀ verr : Error, params.Validate = some verr →
        (Client.DoTimeout c lib params timeout w).1 =
          (Response.zero, some (Error.wrap "failed to validate recaptcha request" verr))) ∧
      (params.Validate = none →
        (∀ e : Error,
          (Transport.DoTimeout c (postRequest params) timeout w.net).1 = .error e →
          (Client.DoTimeout c lib params timeout w).1 =
            (Response.zero, some (Error.wrap "failed to reach google recaptcha api" e))) ∧
        (∀ b : List UInt8,
          (Transport.DoTimeout c (postRequest params) timeout w.net).1 = .ok b →
          (Client.DoTimeout c lib params timeout w).1 = Parse lib b))) := by
  refine ⟨fun body herr hnot => ?_, fun body val herr hdoc hs => ⟨?_, ?_⟩,
    fun body val sc e hdoc hs hsc he => ?_,
    fun body val score action hdoc hs hscore haction =>
      Parse_late_error lib body val score action hdoc hs hscore haction, ?_, ?_, ?_, ?_⟩
  · cases hdoc : lib.ParseBytes body with
    | error e => simp [Parse, hdoc]
    | ok val =>
      have hne := hnot val hdoc
      cases hs : val.Get "success" with
      | none => simp [Parse, hdoc, hs]
      | some v =>
        cases v with
        | vtrue => exact absurd hs hne
        | vfalse =>
          cases hc : val.Get "error-codes" with
          | none => simp [Parse, hdoc, hs, hc, Value.Bool, Response.zero]
          | some cv =>
            cases cv with
            | array a =>
              rw [Parse_of_failure lib body val a hdoc hs hc] at herr
              exact absurd rfl herr
            | _ => simp [Parse, hdoc, hs, hc, Value.Bool, Value.Array, Response.zero]
        | _ => simp [Parse, hdoc, hs, Value.Bool, Response.zero]
  · cases hsc : val.Get "score" <;> cases hac : val.Get "action" <;>
      cases hts : val.Get "challenge_ts" <;> cases hh : val.Get "hostname" <;>
      cases hapk : val.Get "apk_package_name" <;>
      simp [Parse, hdoc, hs, hsc, hac, hts, hh, hapk, Value.Bool] at herr ⊢ <;>
      (repeat' split) <;> simp_all [Response.zero]
  · cases hsc : val.Get "score" <;> cases hts : val.Get "challenge_ts" <;>
      cases hh : val.Get "hostname" <;> cases hapk : val.Get "apk_package_name" <;>
      simp [Parse, hdoc, hs, hsc, hts, hh, hapk, Value.Bool] at herr ⊢ <;>
      (repeat' split at herr) <;> simp_all
  · simp [Parse, hdoc, hs, hsc, he, Value.Bool, Response.zero]
  · rw [Do_eq_verifySpec]
    exact verifySpec_cases lib params _
  · rw [DoTimeout_eq_verifySpec]
    exact verifySpec_cases lib params _
  · rw [Client_Do_eq_verifySpec]
    exact verifySpec_cases lib params _
  · rw [Client_DoTimeout_eq_verifySpec]
    exact verifySpec_cases lib params _

/-- Parse_error_result at a body without fields, at success bodies that fail at the
score, at the timestamp and at the host, and at the calls on the request of the tests. -/
theorem Parse_error_result_witness :
    (Parse sampleLib emptyObjectBody).2 ≠ none ∧
    (Parse sampleLib emptyObjectBody).1 = Response.zero ∧
    (Parse sampleLib noHostBody).2 ≠ none ∧
    ((Parse sampleLib noHostBody).1.Success = true ∧
      (Parse sampleLib noHostBody).1.Hostname = "" ∧
      (Parse sampleLib noHostBody).1.ErrorCodes = []) ∧
    Parse sampleLib stringScoreBody =
      ({ Success := true, Score := 0, Action := "", ChallengeTS := 0, Hostname := "",
         ErrorCodes := [] },
       some (Error.wrap "failed to parse json field 'score'"
         (Error.new "value doesn't contain number; it contains string"))) ∧
    Parse sampleLib badTimestampBody =
      ({ Success := true, Score := 9 / 10, Action := "login", ChallengeTS := 0,
         Hostname := "", ErrorCodes := [] },
       some (Error.wrap "failed to parse json field 'challenge_ts'"
         (Error.new "cannot parse time"))) ∧
    Parse sampleLib v3NoHostBody =
      ({ Success := true, Score := 9 / 10, Action := "login", ChallengeTS := 1585742400,
         Hostname := "", ErrorCodes := [] },
       some (Error.new "both json fields 'hostname' and 'apk_package_name' not found")) ∧
    (Do (constTransport (.ok v3NoHostBody)) sampleLib (Request.mk "" "hhhhhh" "") ⟨0, []⟩).1 =
      (Response.zero, some (Error.wrap "failed to validate recaptcha request"
        (Error.new "secret must not be empty"))) ∧
    (Do (constTransport (.ok v3NoHostBody)) sampleLib testRequest ⟨0, []⟩).1 =
      Parse sampleLib v3NoHostBody :=
  have h := Parse_error_result sampleTransport sampleTransport sampleLib testRequest
    3000000000 ⟨0, []⟩
  ⟨by decide,
   h.1 emptyObjectBody (by decide) (fun val hdoc hs => by
     have hv : val = emptyObjectDoc := (Except.ok.inj hdoc).symm
     subst hv
     cases hs),
   by decide, (h.2.1 noHostBody noHostDoc (by decide) rfl rfl).1,
   h.2.2.1 stringScoreBody stringScoreDoc (.string "high")
     (Error.new "value doesn't contain number; it contains string") rfl rfl rfl rfl,
   (h.2.2.2.1 badTimestampBody badTimestampDoc (9 / 10) "login" rfl rfl
     (Or.inr ⟨.number "0.9", rfl, rfl⟩) (Or.inr ⟨.string "login", rfl, rfl⟩)).2.1
     (.string "yesterday") (Error.new "cannot parse time") rfl rfl,
   (h.2.2.2.1 v3NoHostBody v3NoHostDoc (9 / 10) "login" rfl rfl
     (Or.inr ⟨.number "0.9", rfl, rfl⟩) (Or.inr ⟨.string "login", rfl, rfl⟩)).2.2
     (.string "2020-04-01T12:00:00Z") rfl rfl rfl rfl,
   (Parse_error_result (constTransport (.ok v3NoHostBody))
     (constTransport (.ok v3NoHostBody)) sampleLib (Request.mk "" "hhhhhh" "") 3000000000
     ⟨0, []⟩).2.2.2.2.1.1 (Error.new "secret must not be empty") rfl,
   ((Parse_error_result (constTransport (.ok v3NoHostBody))
     (constTransport (.ok v3NoHostBody)) sampleLib testRequest 3000000000
     ⟨0, []⟩).2.2.2.2.1.2 (by decide)).2 v3NoHostBody rfl⟩

/-! ## Error codes -/

/-- C12: on a body with success false, Parse returns the not-found error when error-codes
is absent and an error wrapping the type error of the decoder when it is present but is
no array; an empty array is accepted and gives empty ErrorCodes without error. -/
theorem Parse_error_codes_required {F T : Type} [Zero F] [Inhabited T] (lib : Lib F T)
    (body : List UInt8) (val : Value) (hdoc : lib.ParseBytes body = .ok val)
    (hs : val.Get "success" = some Value.vfalse) :
    (val.Get "error-codes" = none →
      (Parse lib body).2 = some (Error.new "json field 'error-codes' not found")) ∧
    (∀ cv : Value, val.Get "error-codes" = some cv → (∀ a : List Value, cv ≠ Value.array a) →
      ∃ e : Error, (Parse lib body).2 =
        some (Error.wrap "failed to parse json field 'error-codes'" e)) ∧
    (val.Get "error-codes" = some (Value.array []) →
      (Parse lib body).2 = none ∧ (Parse lib body).1.ErrorCodes = []) := by
  refine ⟨fun hc => ?_, fun cv hc hna => ?_, fun hc => ?_⟩
  · simp [Parse, hdoc, hs, hc, Value.Bool]
  · cases cv with
    | array a => exact absurd rfl (hna a)
    | _ => simp [Parse, hdoc, hs, hc, Value.Bool, Value.Array]
  · rw [Parse_of_failure lib body val [] hdoc hs hc]
    exact ⟨rfl, rfl⟩

/-- Parse_error_codes_required at failure bodies without codes, with a string for codes,
and with an empty array of codes. -/
theorem Parse_error_codes_required_witness :
    (Parse sampleLib noCodesBody).2 = some (Error.new "json field 'error-codes' not found") ∧
    (∃ e : Error, (Parse sampleLib stringCodesBody).2 =
      some (Error.wrap "failed to parse json field 'error-codes'" e)) ∧
    ((Parse sampleLib emptyCodesBody).2 = none ∧
      (Parse sampleLib emptyCodesBody).1.ErrorCodes = []) :=
  ⟨(Parse_error_codes_required sampleLib noCodesBody noCodesDoc rfl rfl).1 rfl,
   (Parse_error_codes_required sampleLib stringCodesBody stringCodesDoc rfl rfl).2.1
     (.string "bad-request") rfl (by simp),
   (Parse_error_codes_required sampleLib emptyCodesBody emptyCodesDoc rfl rfl).2.2 rfl⟩

/-- C16: on a body with success false and an error-codes array, Parse returns no error
and as many codes as the array has elements, in the same order: at each index the content
of the element when it is a string, and the empty string when it is not. -/
theorem Parse_error_codes_elements {F T : Type} [Zero F] [Inhabited T] (lib : Lib F T)
    (body : List UInt8) (val : Value) (a : List Value)
    (hdoc : lib.ParseBytes body = .ok val)
    (hs : val.Get "success" = some Value.vfalse)
    (hc : val.Get "error-codes" = some (Value.array a)) :
    (Parse lib body).2 = none ∧
    (Parse lib body).1.ErrorCodes.length = a.length ∧
    (∀ (i : ℕ) (v : Value), a[i]? = some v →
      (∀ str : String, v = Value.string str →
        (Parse lib body).1.ErrorCodes[i]? = some str) ∧
      ((∀ str : String, v ≠ Value.string str) →
        (Parse lib body).1.ErrorCodes[i]? = some "")) := by
  rw [Parse_of_failure lib body val a hdoc hs hc]
  refine ⟨rfl, by simp, fun i v hv => ⟨fun str hstr => ?_, fun hns => ?_⟩⟩
  · subst hstr
    simp [List.getElem?_map, hv, Value.GetStringBytes]
  · cases v with
    | string str => exact absurd rfl (hns str)
    | _ => simp [List.getElem?_map, hv, Value.GetStringBytes]

/-- Parse_error_codes_elements at a failure body whose codes are a string, a number and
null. -/
theorem Parse_error_codes_elements_witness :
    (Parse sampleLib mixedCodesBody).2 = none ∧
    (Parse sampleLib mixedCodesBody).1.ErrorCodes = ["bad-request", "", ""] ∧
    (Parse sampleLib mixedCodesBody).1.ErrorCodes[0]? = some "bad-request" ∧
    (Parse sampleLib mixedCodesBody).1.ErrorCodes[1]? = some "" :=
  have h := Parse_error_codes_elements sampleLib mixedCodesBody mixedCodesDoc
    [.string "bad-request", .number "7", .null] rfl rfl rfl
  ⟨h.1, by decide, (h.2.2 0 (.string "bad-request") rfl).1 "bad-request" rfl,
   (h.2.2 1 (.number "7") rfl).2 (by simp)⟩

/-! ## The fields of the success path -/

/-- C13, as stated, fails: a success body whose action is a number parses without error,
and the Action of the result is the empty string. -/
theorem Parse_action_type_counterexample :
    sampleLib.ParseBytes numericActionBody = .ok numericActionDoc ∧
    numericActionDoc.Get "success" = some Value.vtrue ∧
    numericActionDoc.Get "action" = some (Value.number "7") ∧
    (Parse sampleLib numericActionBody).2 = none ∧
    (Parse sampleLib numericActionBody).1.Action = "" :=
  ⟨rfl, rfl, rfl, by decide, by decide⟩

/-- C13, amended: on a body with success true, a score that is present but is no number
makes Parse return an error wrapping the type error of the decoder; an action that is
present but is no string is no error: on a body with an RFC 3339 challenge_ts, a hostname
and a score that is absent or converts, Parse returns no error and the empty Action. -/
theorem Parse_v3_field_types {F T : Type} [Zero F] [Inhabited T] (lib : Lib F T)
    (body : List UInt8) (val : Value) (hdoc : lib.ParseBytes body = .ok val)
    (hs : val.Get "success" = some Value.vtrue) :
    (∀ sc : Value, val.Get "score" = some sc → (∀ raw : String, sc ≠ Value.number raw) →
      ∃ e : Error, (Parse lib body).2 =
        some (Error.wrap "failed to parse json field 'score'" e)) ∧
    (∀ av ts host : Value, val.Get "action" = some av →
      (∀ str : String, av ≠ Value.string str) →
      (∀ sc : Value, val.Get "score" = some sc → (sc.Float64 lib).2 = none) →
      val.Get "challenge_ts" = some ts → isRFC3339 lib ts = true →
      val.Get "hostname" = some host →
      (Parse lib body).2 = none ∧ (Parse lib body).1.Action = "") := by
  refine ⟨fun sc hsc hnn => ?_, fun av ts host hac hns hscore hts hvalid hhost => ?_⟩
  · cases sc with
    | number raw => exact absurd rfl (hnn raw)
    | _ => simp [Parse, hdoc, hs, hsc, Value.Bool, Value.Float64]
  · have ht := ParseTime_of_isRFC3339 lib ts hvalid
    have hav : av.GetStringBytes = "" := by
      cases av with
      | string str => exact absurd rfl (hns str)
      | _ => rfl
    cases hsc : val.Get "score" with
    | none => simp [Parse, hdoc, hs, hsc, hac, hts, hhost, ht, hav, Value.Bool]
    | some sc =>
      have := hscore sc hsc
      simp [Parse, hdoc, hs, hsc, hac, hts, hhost, ht, hav, this, Value.Bool]

/-- Parse_v3_field_types at a success body whose score is a string and at one whose
action is a number. -/
theorem Parse_v3_field_types_witness :
    (∃ e : Error, (Parse sampleLib stringScoreBody).2 =
      some (Error.wrap "failed to parse json field 'score'" e)) ∧
    ((Parse sampleLib numericActionBody).2 = none ∧
      (Parse sampleLib numericActionBody).1.Action = "") :=
  ⟨(Parse_v3_field_types sampleLib stringScoreBody stringScoreDoc rfl rfl).1
     (.string "high") rfl (by simp),
   (Parse_v3_field_types sampleLib numericActionBody numericActionDoc rfl rfl).2
     (.number "7") (.string "2020-04-01T12:00:00Z") (.string "example.com") rfl (by simp)
     (by intro sc h; cases h) rfl (by decide) rfl⟩

/-- C14: a result that Parse returns without error and with Success true has no error
codes, whatever error-codes field the body carries. -/
theorem Parse_success_no_error_codes {F T : Type} [Zero F] [Inhabited T] (lib : Lib F T)
    (body : List UInt8) (hok : (Parse lib body).2 = none)
    (hsucc : (Parse lib body).1.Success = true) :
    (Parse lib body).1.ErrorCodes = [] := by
  cases hdoc : lib.ParseBytes body with
  | error e => simp [Parse, hdoc] at hok
  | ok val =>
    cases hs : val.Get "success" with
    | none => simp [Parse, hdoc, hs] at hok
    | some v =>
      cases v with
      | vtrue =>
        cases hsc : val.Get "score" <;> cases hac : val.Get "action" <;>
          cases hts : val.Get "challenge_ts" <;> cases hh : val.Get "hostname" <;>
          cases hapk : val.Get "apk_package_name" <;>
          simp [Parse, hdoc, hs, hsc, hac, hts, hh, hapk, Value.Bool] at hok ⊢ <;>
          (repeat' split) <;> simp_all [Response.zero]
      | vfalse =>
        simp [Parse, hdoc, hs, Value.Bool] at hsucc
        (repeat' split at hsucc) <;> simp_all [Response.zero]
      | _ => simp [Parse, hdoc, hs, Value.Bool] at hok

/-- Parse_success_no_error_codes at a success body that carries error codes. -/
theorem Parse_success_no_error_codes_witness :
    sampleLib.ParseBytes successWithCodesBody = .ok successWithCodesDoc ∧
    successWithCodesDoc.Get "error-codes" = some (Value.array [.string "bad-request"]) ∧
    (Parse sampleLib successWithCodesBody).2 = none ∧
    (Parse sampleLib successWithCodesBody).1.Success = true ∧
    (Parse sampleLib successWithCodesBody).1.ErrorCodes = [] :=
  ⟨rfl, rfl, by decide, by decide,
   Parse_success_no_error_codes sampleLib successWithCodesBody (by decide) (by decide)⟩

/-- C17, as stated, fails: on a body with success true, an RFC 3339 challenge_ts and the
hostname example.com, a score that is a string makes Parse return an error, and the
Hostname of the result is empty, not the hostname of the body. -/
theorem Parse_hostname_counterexample :
    sampleLib.ParseBytes stringScoreBody = .ok stringScoreDoc ∧
    stringScoreDoc.Get "success" = some Value.vtrue ∧
    stringScoreDoc.Get "challenge_ts" = some (Value.string "2020-04-01T12:00:00Z") ∧
    isRFC3339 sampleLib (Value.string "2020-04-01T12:00:00Z") = true ∧
    stringScoreDoc.Get "hostname" = some (Value.string "example.com") ∧
    (Parse sampleLib stringScoreBody).2 ≠ none ∧
    (Parse sampleLib stringScoreBody).1.Hostname = "" ∧
    (Parse sampleLib stringScoreBody).1.Hostname ≠ "example.com" :=
  ⟨rfl, rfl, rfl, by decide, rfl, by decide, by decide, by decide⟩

/-- C17, amended: on a body with success true, an RFC 3339 challenge_ts, a score that is
absent or converts, and the hostname key present, Parse returns no error and takes
Hostname from hostname, whatever apk_package_name holds: the string when hostname is a
string, and the empty string when it is any other value. -/
theorem Parse_hostname_by_presence {F T : Type} [Zero F] [Inhabited T] (lib : Lib F T)
    (body : List UInt8) (val ts host : Value)
    (hdoc : lib.ParseBytes body = .ok val)
    (hs : val.Get "success" = some Value.vtrue)
    (hts : val.Get "challenge_ts" = some ts) (hvalid : isRFC3339 lib ts = true)
    (hscore : ∀ sc : Value, val.Get "score" = some sc → (sc.Float64 lib).2 = none)
    (hhost : val.Get "hostname" = some host) :
    (Parse lib body).2 = none ∧
    (∀ str : String, host = Value.string str → (Parse lib body).1.Hostname = str) ∧
    ((∀ str : String, host ≠ Value.string str) → (Parse lib body).1.Hostname = "") := by
  have ht := ParseTime_of_isRFC3339 lib ts hvalid
  have key : (Parse lib body).2 = none ∧ (Parse lib body).1.Hostname = host.GetStringBytes := by
    cases hsc : val.Get "score" with
    | none => simp [Parse, hdoc, hs, hsc, hts, hhost, ht, Value.Bool]
    | some sc =>
      have := hscore sc hsc
      simp [Parse, hdoc, hs, hsc, hts, hhost, ht, this, Value.Bool]
  refine ⟨key.1, fun str hstr => ?_, fun hns => ?_⟩
  · rw [key.2, hstr]
    rfl
  · rw [key.2]
    cases host with
    | string str => exact absurd rfl (hns str)
    | _ => rfl

/-- Parse_hostname_by_presence at a success body whose hostname is null next to a package
name, and at the v2 success body. -/
theorem Parse_hostname_by_presence_witness :
    nullHostDoc.Get "apk_package_name" = some (Value.string "com.example.app") ∧
    (Parse sampleLib nullHostBody).2 = none ∧
    (Parse sampleLib nullHostBody).1.Hostname = "" ∧
    (Parse sampleLib v2Body).1.Hostname = "example.com" :=
  have h := Parse_hostname_by_presence sampleLib nullHostBody nullHostDoc
    (.string "2020-04-01T12:00:00Z") .null rfl rfl rfl (by decide) (by intro sc h; cases h) rfl
  ⟨rfl, h.1, h.2.2 (by simp),
   (Parse_hostname_by_presence sampleLib v2Body v2Doc (.string "2020-04-01T12:00:00Z")
     (.string "example.com") rfl rfl rfl (by decide) (by intro sc h; cases h) rfl).2.1
     "example.com" rfl⟩

/-! ## Transport errors, and the four calls as one -/

/-- The call of the specification on a valid request and a transport error. -/
theorem verifySpec_of_error {F T : Type} [Zero F] [Inhabited T] (lib : Lib F T)
    (params : Request) (e : Error) (hvalid : params.Validate = none) :
    verifySpec lib params (.error e) =
      (Response.zero, some (Error.wrap "failed to reach google recaptcha api" e)) := by
  simp [verifySpec, hvalid]

/-- C15: for a valid request, each of the four calls whose transport reports an error e
returns the zero Response and the error wrapping e, whatever the library would parse; and
when a bounded call reports a timeout error t, the error returned unwraps to t and
differs from the error returned for every other transport error. -/
theorem calls_wrap_transport_error {σ F T : Type} [Zero F] [Inhabited T]
    (fasthttp : Transport σ) (c : Client σ) (lib : Lib F T) (params : Request)
    (timeout : Duration) (w : World σ) (hvalid : params.Validate = none) :
    (∀ e : Error, (fasthttp.Do (postRequest params) w.net).1 = .error e →
      (Do fasthttp lib params w).1 =
        (Response.zero, some (Error.wrap "failed to reach google recaptcha api" e))) ∧
    (∀ e : Error, (fasthttp.DoTimeout (postRequest params) timeout w.net).1 = .error e →
      (DoTimeout fasthttp lib params timeout w).1 =
        (Response.zero, some (Error.wrap "failed to reach google recaptcha api" e))) ∧
    (∀ e : Error, (Transport.Do c (postRequest params) w.net).1 = .error e →
      (Client.Do c lib params w).1 =
        (Response.zero, some (Error.wrap "failed to reach google recaptcha api" e))) ∧
    (∀ e : Error, (Transport.DoTimeout c (postRequest params) timeout w.net).1 = .error e →
      (Client.DoTimeout c lib params timeout w).1 =
        (Response.zero, some (Error.wrap "failed to reach google recaptcha api" e))) ∧
    (∀ t : Error, (fasthttp.DoTimeout (postRequest params) timeout w.net).1 = .error t →
      (DoTimeout fasthttp lib params timeout w).1.2.bind Error.Unwrap = some t ∧
      ∀ e : Error, e ≠ t → (DoTimeout fasthttp lib params timeout w).1.2 ≠
        some (Error.wrap "failed to reach google recaptcha api" e)) ∧
    (∀ t : Error, (Transport.DoTimeout c (postRequest params) timeout w.net).1 = .error t →
      (Client.DoTimeout c lib params timeout w).1.2.bind Error.Unwrap = some t ∧
      ∀ e : Error, e ≠ t → (Client.DoTimeout c lib params timeout w).1.2 ≠
        some (Error.wrap "failed to reach google recaptcha api" e)) := by
  refine ⟨fun e h => ?_, fun e h => ?_, fun e h => ?_, fun e h => ?_, fun t h => ?_,
    fun t h => ?_⟩
  · rw [Do_eq_verifySpec, h, verifySpec_of_error lib params e hvalid]
  · rw [DoTimeout_eq_verifySpec, h, verifySpec_of_error lib params e hvalid]
  · rw [Client_Do_eq_verifySpec, h, verifySpec_of_error lib params e hvalid]
  · rw [Client_DoTimeout_eq_verifySpec, h, verifySpec_of_error lib params e hvalid]
  · rw [DoTimeout_eq_verifySpec, h, verifySpec_of_error lib params t hvalid]
    refine ⟨rfl, fun e hne heq => hne ?_⟩
    simp only [Option.some.injEq, Error.wrap.injEq, true_and] at heq
    exact heq.symm
  · rw [Client_DoTimeout_eq_verifySpec, h, verifySpec_of_error lib params t hvalid]
    refine ⟨rfl, fun e hne heq => hne ?_⟩
    simp only [Option.some.injEq, Error.wrap.injEq, true_and] at heq
    exact heq.symm

/-- The calls calls_wrap_transport_error speaks of, on the request of the tests against a
transport that reports a timeout. -/
theorem calls_wrap_transport_error_witness :
    testRequest.Validate = none ∧
    (Do (constTransport (.error ErrTimeout)) sampleLib testRequest ⟨0, []⟩).1 =
      (Response.zero, some (Error.wrap "failed to reach google recaptcha api" ErrTimeout)) ∧
    (DoTimeout (constTransport (.error ErrTimeout)) sampleLib testRequest 1 ⟨0, []⟩).1.2.bind
      Error.Unwrap = some ErrTimeout ∧
    (DoTimeout (constTransport (.error ErrTimeout)) sampleLib testRequest 1 ⟨0, []⟩).1.2 ≠
      some (Error.wrap "failed to reach google recaptcha api"
        (Error.new "connection refused")) :=
  have h := calls_wrap_transport_error (constTransport (.error ErrTimeout))
    (constTransport (.error ErrTimeout)) sampleLib testRequest 1 ⟨0, []⟩ (by decide)
  ⟨by decide, h.1 ErrTimeout rfl, (h.2.2.2.2.1 ErrTimeout rfl).1,
   (h.2.2.2.2.1 ErrTimeout rfl).2 (Error.new "connection refused") (by decide)⟩

/-- C18: each of the four calls returns what the call of the specification returns on the
outcome of its own transport; so when the four transports have the same outcome, the four
calls return the same pair: the wrapped validation error, the wrapped transport error, or
the result of Parse on the body. -/
theorem calls_refine_verifySpec {σ F T : Type} [Zero F] [Inhabited T]
    (fasthttp : Transport σ) (c : Client σ) (lib : Lib F T) (params : Request)
    (timeout : Duration) (w : World σ) :
    (Do fasthttp lib params w).1 =
      verifySpec lib params (fasthttp.Do (postRequest params) w.net).1 ∧
    (DoTimeout fasthttp lib params timeout w).1 =
      verifySpec lib params (fasthttp.DoTimeout (postRequest params) timeout w.net).1 ∧
    (Client.Do c lib params w).1 =
      verifySpec lib params (Transport.Do c (postRequest params) w.net).1 ∧
    (Client.DoTimeout c lib params timeout w).1 =
      verifySpec lib params (Transport.DoTimeout c (postRequest params) timeout w.net).1 ∧
    (∀ outcome : Except Error (List UInt8),
      (fasthttp.Do (postRequest params) w.net).1 = outcome →
      (fasthttp.DoTimeout (postRequest params) timeout w.net).1 = outcome →
      (Transport.Do c (postRequest params) w.net).1 = outcome →
      (Transport.DoTimeout c (postRequest params) timeout w.net).1 = outcome →
      (Do fasthttp lib params w).1 = verifySpec lib params outcome ∧
      (DoTimeout fasthttp lib params timeout w).1 = (Do fasthttp lib params w).1 ∧
      (Client.Do c lib params w).1 = (Do fasthttp lib params w).1 ∧
      (Client.DoTimeout c lib params timeout w).1 = (Do fasthttp lib params w).1) := by
  refine ⟨Do_eq_verifySpec _ _ _ _, DoTimeout_eq_verifySpec _ _ _ _ _,
    Client_Do_eq_verifySpec _ _ _ _, Client_DoTimeout_eq_verifySpec _ _ _ _ _,
    fun outcome h1 h2 h3 h4 => ?_⟩
  rw [Do_eq_verifySpec, DoTimeout_eq_verifySpec, Client_Do_eq_verifySpec,
    Client_DoTimeout_eq_verifySpec, h1, h2, h3, h4]
  exact ⟨rfl, rfl, rfl, rfl⟩

/-- The calls calls_refine_verifySpec speaks of, on the request of the tests against a
transport that answers with the failure body of the live API. -/
theorem calls_refine_verifySpec_witness :
    (Do sampleTransport sampleLib testRequest ⟨0, []⟩).1 =
      verifySpec sampleLib testRequest (.ok failureBody) ∧
    (DoTimeout sampleTransport sampleLib testRequest 3000000000 ⟨0, []⟩).1 =
      (Do sampleTransport sampleLib testRequest ⟨0, []⟩).1 ∧
    (Client.Do sampleTransport sampleLib testRequest ⟨0, []⟩).1 =
      (Do sampleTransport sampleLib testRequest ⟨0, []⟩).1 ∧
    (Client.DoTimeout sampleTransport sampleLib testRequest 3000000000 ⟨0, []⟩).1 =
      (Do sampleTransport sampleLib testRequest ⟨0, []⟩).1 :=
  (calls_refine_verifySpec sampleTransport sampleTransport sampleLib testRequest 3000000000
    ⟨0, []⟩).2.2.2.2 (.ok failureBody) rfl rfl rfl rfl

end Recaptcha
